import Mathlib

/-!
Shallow embedding of the OBS source-plugin FFI trampoline layer
(src/source/ffi.rs of rust-obs-plugins) and verification of its
natural-language specification.

Modelling conventions:
* A Rust panic ("fault") raised while running capability code is modelled
  by the inductive `CapStep`: a capability call either completes with a
  value and a (possibly mutated) capsule state, or panics, leaving a
  (possibly partially mutated) capsule state behind.
* `catch_unwind` and the two boundary helpers `handle_unwind` /
  `handle_unwind_with_def` are embedded directly from the source
  (ffi.rs lines 247-266); the diagnostic log side channel
  (the error macro invocation) is modelled by a counter `LogState`.
* What a trampoline hands back to the host is a `HostResult`: either a
  normally returned value, or `unwound`, meaning the fault escaped the
  trampoline into the host native frame (for an extern C function this is
  fatal to the host process; either way the fault is not contained).
* Raw pointers (obs_audio_data, obs_properties) are modelled as naturals,
  0 standing for the null pointer.
-/

namespace ObsFfi

/-- Outcome of one capability call on a capsule holding `Option D`:
either success with a return value and the capsule state left behind, or
a panic, also with the capsule state left behind (partial mutation may
persist, as the state lives behind the raw pointer). -/
inductive CapStep (D : Type) (A : Type) where
  | ok : Option D → A → CapStep D A
  | panic : Option D → CapStep D A
deriving DecidableEq

/-- Outcome of an already-run closure body, as seen by `catch_unwind`:
a value, or a panic in flight. -/
inductive PanicOr (A : Type) where
  | ok : A → PanicOr A
  | panic : PanicOr A
deriving DecidableEq

/-- What the host observes from one trampoline call: a normally returned
value, or an unwind escaping the trampoline (uncontained fault). -/
inductive HostResult (A : Type) where
  | ret : A → HostResult A
  | unwound : HostResult A
deriving DecidableEq

/-- The diagnostic-log side channel, modelled as an invocation counter. -/
structure LogState where
  count : Nat
deriving DecidableEq

/-- One invocation of the failure-report side channel
(the diagnostic-log macro call at ffi.rs line 262). -/
def error_log (l : LogState) : LogState :=
  { count := l.count + 1 }

/-- std::panic::catch_unwind: converts an in-flight panic into an error
value instead of letting it continue unwinding. -/
def catch_unwind {A : Type} (body : PanicOr A) : Except Unit A :=
  match body with
  | .ok r => .ok r
  | .panic => .error ()

/-- ffi.rs lines 254-266: run the body under `catch_unwind`; on success
return its value with the log untouched; on a caught panic report once
through the diagnostic log and return the caller-supplied default. -/
def handle_unwind_with_def {A : Type} (body : PanicOr A) (d : A) (l : LogState) :
    A × LogState :=
  match catch_unwind body with
  | .ok r => (r, l)
  | .error _ => (d, error_log l)

/-- ffi.rs lines 247-252: the unit-returning boundary, delegating to
`handle_unwind_with_def` with the unit default. -/
def handle_unwind (body : PanicOr Unit) (l : LogState) : Unit × LogState :=
  handle_unwind_with_def body () l

/-- ffi.rs lines 19-21: the opaque instance capsule. It owns the optional
type-erased plugin instance. -/
structure DataWrapper (D : Type) where
  data : Option D
deriving DecidableEq

/-- ffi.rs lines 23-27: `Default for DataWrapper` produces the empty
capsule. -/
def DataWrapper.default (D : Type) : DataWrapper D :=
  { data := none }

/-- What the host observes from one trampoline call that touches a
capsule: the value handed back, the capsule state after the call, and the
state of the diagnostic log. -/
structure TrampOut (D : Type) (A : Type) where
  host : HostResult A
  state : Option D
  log : LogState
deriving DecidableEq

/-- Run a trampoline body that first calls the capability and, if that
returns, continues with a pure continuation `k` on its value. Yields the
closure outcome as seen by `catch_unwind`, plus the capsule state left
behind (the capsule lives behind the raw pointer, so its mutation
persists whether or not the body panicked). -/
def run_body {D A B : Type} (step : CapStep D A) (k : A → B) :
    PanicOr B × Option D :=
  match step with
  | .ok s v => (.ok (k v), s)
  | .panic s => (.panic, s)

/-- Host-visible outcome of a capability call made with no fault boundary
around it: on success the value is returned, on a panic the unwind
escapes the trampoline. -/
def run_unwrapped {D A : Type} (step : CapStep D A) : HostResult A × Option D :=
  match step with
  | .ok s v => (.ret v, s)
  | .panic s => (.unwound, s)

/-- ffi.rs lines 35-46 and 54-60 (impl_simple_fn): the get_width
trampoline unwraps the capsule and calls the capability directly, with no
fault boundary. The u32 result is modelled as a natural. -/
def get_width {D : Type} (F : Option D → CapStep D Nat) (s : Option D)
    (l : LogState) : TrampOut D Nat :=
  let r := run_unwrapped (F s)
  { host := r.1, state := r.2, log := l }

/-- ffi.rs lines 35-46 and 54-60 (impl_simple_fn): the get_height
trampoline, same shape as get_width. -/
def get_height {D : Type} (F : Option D → CapStep D Nat) (s : Option D)
    (l : LogState) : TrampOut D Nat :=
  let r := run_unwrapped (F s)
  { host := r.1, state := r.2, log := l }

/-- ffi.rs lines 35-46 and 54-60 (impl_simple_fn): the activate
trampoline: capsule unwrap, direct capability call, no fault boundary,
no return value. -/
def activate {D : Type} (F : Option D → CapStep D Unit) (s : Option D)
    (l : LogState) : TrampOut D Unit :=
  let r := run_unwrapped (F s)
  { host := r.1, state := r.2, log := l }

/-- ffi.rs lines 35-46 and 54-60 (impl_simple_fn): the deactivate
trampoline, same shape as activate. -/
def deactivate {D : Type} (F : Option D → CapStep D Unit) (s : Option D)
    (l : LogState) : TrampOut D Unit :=
  let r := run_unwrapped (F s)
  { host := r.1, state := r.2, log := l }

/-- ffi.rs lines 174-177 (impl_simple_fn): the transition_start
trampoline, same shape as activate. -/
def transition_start {D : Type} (F : Option D → CapStep D Unit) (s : Option D)
    (l : LogState) : TrampOut D Unit :=
  let r := run_unwrapped (F s)
  { host := r.1, state := r.2, log := l }

/-- ffi.rs lines 174-177 (impl_simple_fn): the transition_stop
trampoline, same shape as activate. -/
def transition_stop {D : Type} (F : Option D → CapStep D Unit) (s : Option D)
    (l : LogState) : TrampOut D Unit :=
  let r := run_unwrapped (F s)
  { host := r.1, state := r.2, log := l }

/-- ffi.rs line 157 context type: the per-call enumeration context for
enum_active_sources. In the source it is constructed with an empty struct
literal, so the type has no fields. -/
structure EnumActiveContext where
deriving DecidableEq

/-- ffi.rs line 169 context type: the per-call enumeration context for
enum_all_sources; also constructed with an empty struct literal. -/
structure EnumAllContext where
deriving DecidableEq

/-- What the host observes from one enumeration trampoline call, plus the
context object the trampoline constructed and passed to the capability
and the number of times this layer itself invoked the host-supplied
enumeration callback. -/
structure EnumOut (D : Type) (C : Type) where
  host : HostResult Unit
  state : Option D
  log : LogState
  passedContext : C
  hostCallbackCalls : Nat
deriving DecidableEq

/-- ffi.rs lines 150-160: enum_active_sources. The host's callback
pointer and its parameter arrive as arguments (modelled as naturals) but
are bound to underscore-prefixed parameters and never used: the context
passed to the capability is the empty struct, and this layer never calls
the callback. The capability call runs under `handle_unwind`. -/
def enum_active_sources {D : Type}
    (F : Option D → EnumActiveContext → CapStep D Unit) (s : Option D)
    (_ecb : Nat) (_param : Nat) (l : LogState) : EnumOut D EnumActiveContext :=
  let context : EnumActiveContext := {}
  let r := run_body (F s context) (fun u => u)
  let b := handle_unwind r.1 l
  { host := .ret b.1, state := r.2, log := b.2, passedContext := context,
    hostCallbackCalls := 0 }

/-- ffi.rs lines 162-172: enum_all_sources, same shape as
enum_active_sources with the all-sources context. -/
def enum_all_sources {D : Type}
    (F : Option D → EnumAllContext → CapStep D Unit) (s : Option D)
    (_ecb : Nat) (_param : Nat) (l : LogState) : EnumOut D EnumAllContext :=
  let context : EnumAllContext := {}
  let r := run_body (F s context) (fun u => u)
  let b := handle_unwind r.1 l
  { host := .ret b.1, state := r.2, log := b.2, passedContext := context,
    hostCallbackCalls := 0 }

/-- The audio-data view handed to a filter-audio capability: a borrowed
wrapper around the raw obs_audio_data pointer (pointers are naturals,
0 is null). -/
structure AudioDataContext where
  raw : Nat
deriving DecidableEq

/-- ffi.rs lines 189-202: filter_audio. The body wraps the raw audio
pointer in a borrowed view, unwraps the capsule, calls the capability,
and returns the same raw audio pointer; the whole body runs under
`handle_unwind_with_def` with the null pointer as default. -/
def filter_audio {D : Type}
    (F : Option D → AudioDataContext → CapStep D Unit) (s : Option D)
    (audio : Nat) (l : LogState) : TrampOut D Nat :=
  let context : AudioDataContext := { raw := audio }
  let r := run_body (F s context) (fun _ => audio)
  let b := handle_unwind_with_def r.1 0 l
  { host := .ret b.1, state := r.2, log := b.2 }

/-- ffi.rs lines 116-134: audio_render. The body unwraps the capsule,
calls the capability, and ends with the literal true; the whole body runs
under `handle_unwind_with_def` with default true. -/
def audio_render {D : Type} (F : Option D → CapStep D Unit) (s : Option D)
    (l : LogState) : TrampOut D Bool :=
  let r := run_body (F s) (fun _ => true)
  let b := handle_unwind_with_def r.1 true l
  { host := .ret b.1, state := r.2, log := b.2 }

/-- What the host observes from a get_properties call, together with a
ledger for the properties builder allocated inside the call: how many
builders were allocated, how many this layer released (dropped), and how
many were forwarded to the host via into_raw. -/
structure PropsOut (D : Type) where
  host : HostResult Nat
  state : Option D
  log : LogState
  allocated : Nat
  released : Nat
  forwarded : Nat
deriving DecidableEq

/-- ffi.rs lines 136-148: get_properties. Modelled from the spec for the
Properties wrapper (super::properties, not under src/): it owns the raw
builder returned by obs_properties_create, into_raw releases it from the
wrapper into the raw return value, and dropping the wrapper (which
happens during unwinding if the capability panics) releases the builder.
`propPtr` is the non-null raw pointer obs_properties_create returned.
On success the builder is forwarded to the host and the trampoline
returns it; on a contained panic the unwound wrapper releases the
builder, nothing is forwarded, and the boundary default null is
returned. -/
def get_properties {D : Type} (F : Option D → CapStep D Unit) (s : Option D)
    (propPtr : Nat) (l : LogState) : PropsOut D :=
  let r := run_body (F s) (fun _ => propPtr)
  let b := handle_unwind_with_def r.1 0 l
  match r.1 with
  | .ok _ =>
      { host := .ret b.1, state := r.2, log := b.2,
        allocated := 1, released := 0, forwarded := 1 }
  | .panic =>
      { host := .ret b.1, state := r.2, log := b.2,
        allocated := 1, released := 1, forwarded := 0 }

/-- What the host observes from a trampoline that wraps the host-owned
settings object in a borrowed DataObj view: the host value, capsule
state, log, and whether this layer ended up releasing the host-owned
settings resource. The DataObj wrapper (crate::data, not under src/) is
modelled from the spec: its drop releases the underlying resource, and
mem::forget suppresses that release. -/
structure SettingsOut (D : Type) (A : Type) where
  host : HostResult A
  state : Option D
  log : LogState
  settingsReleased : Bool
deriving DecidableEq

/-- ffi.rs lines 91-102: update. Inside `handle_unwind` the body wraps
the borrowed settings, calls the capability, then reaches
mem::forget(settings). If the capability returns, forget suppresses the
wrapper's release; if the capability panics, unwinding drops the DataObj
wrapper before forget is reached, so its release action runs on the
host-owned settings, and then the boundary contains the fault. -/
def update {D : Type} (F : Option D → CapStep D Unit) (s : Option D)
    (l : LogState) : SettingsOut D Unit :=
  let r := run_body (F s) (fun u => u)
  let b := handle_unwind r.1 l
  { host := .ret b.1, state := r.2, log := b.2,
    settingsReleased := match r.1 with | .ok _ => false | .panic => true }

/-- ffi.rs lines 70-84: create. No fault boundary. The body wraps the
borrowed settings, calls the create capability to produce the instance,
stores it into a fresh populated capsule, calls mem::forget(settings),
and returns the boxed capsule. A panic in the capability unwinds through
the trampoline (dropping the settings wrapper before forget, hence
releasing the host-owned settings) and escapes to the host. -/
def create {D : Type} (fc : PanicOr D) (l : LogState) :
    SettingsOut D (DataWrapper D) :=
  match fc with
  | .ok d =>
      { host := .ret { data := some d }, state := some d, log := l,
        settingsReleased := false }
  | .panic =>
      { host := .unwound, state := none, log := l, settingsReleased := true }

/-- ffi.rs lines 241-245: get_defaults. No instance, no fault boundary:
wrap the borrowed settings, call the capability, mem::forget(settings).
A panic unwinds past the forget (releasing the settings) and escapes. -/
def get_defaults (fd : PanicOr Unit) (l : LogState) :
    SettingsOut Unit Unit :=
  match fd with
  | .ok _ =>
      { host := .ret (), state := none, log := l, settingsReleased := false }
  | .panic =>
      { host := .unwound, state := none, log := l, settingsReleased := true }

/-- The allocation arena for capsules: a list of slots, each holding a
live capsule or nothing (freed). A raw handle is an index into the
arena; the null/invalid case is an out-of-range index or a freed slot. -/
abbrev Heap (D : Type) : Type :=
  List (Option (DataWrapper D))

/-- ffi.rs lines 62-68: create_default_data. Ignores its settings and
source arguments, boxes a default (empty) capsule and returns the raw
handle. Modelled as appending a fresh slot holding the empty capsule and
returning its index; the function is total (allocation failure is a fatal
abort outside the model) and calls no capability code. -/
def create_default_data (D : Type) (h : Heap D) : Nat × Heap D :=
  (h.length, h ++ [some (DataWrapper.default D)])

/-- ffi.rs lines 86-89: destroy. Reclaims the box behind the raw handle
and lets the capsule drop; dropping the capsule runs the instance
teardown once if the capsule is populated and zero times if it is empty.
Returns the arena after freeing the slot together with the number of
times instance teardown ran; an invalid handle (out of range or already
freed) is undefined behavior, modelled as no result. -/
def destroy (D : Type) (h : Heap D) (p : Nat) : Option (Heap D × Nat) :=
  match h[p]? with
  | some (some w) => some (h.set p none, if w.data.isSome then 1 else 0)
  | _ => none

end ObsFfi

namespace ObsFfi

/-- C1: the fault-containment boundary: on a successful body it returns
the body value unchanged without touching the diagnostic log; on a
panicking body it does not propagate the fault (it returns a value of the
plain result type), invokes the diagnostic-log side channel exactly once,
and returns exactly the caller-supplied default; `handle_unwind` is the
unit instance of the same contract. -/
theorem handle_unwind_with_def_contract {A : Type} (v d : A) (l : LogState) :
    handle_unwind_with_def (PanicOr.ok v) d l = (v, l) ∧
    handle_unwind_with_def (PanicOr.panic) d l = (d, error_log l) ∧
    (handle_unwind_with_def (PanicOr.panic) d l).2.count = l.count + 1 ∧
    handle_unwind (PanicOr.ok ()) l = ((), l) ∧
    handle_unwind PanicOr.panic l = ((), error_log l) :=
  ⟨rfl, rfl, rfl, rfl, rfl⟩

/-- C2 counterexample: a concrete capability implementation whose width
code panics on the empty capsule; the get_width trampoline lets the
unwind escape to the host instead of catching it and returning the
default 0 — so get_width is not fault-contained as the claim states. -/
theorem get_width_not_contained :
    (fun _ : Option Unit => CapStep.panic (D := Unit) (A := Nat) none) none =
      CapStep.panic (D := Unit) (A := Nat) none ∧
    (get_width (fun _ : Option Unit => CapStep.panic none) none
        { count := 0 }).host = HostResult.unwound ∧
    (get_width (fun _ : Option Unit => CapStep.panic none) none
        { count := 0 }).host ≠ HostResult.ret 0 := by
  refine ⟨rfl, rfl, ?_⟩
  decide

/-- C2 (amended): the get_width and get_height trampolines carry no fault
boundary: when the capability completes they return its value unchanged,
and when the capability panics the fault escapes the trampoline to the
host (no default 0 is substituted and the diagnostic log is never
invoked). -/
theorem get_width_height_uncontained {D : Type}
    (Fw Fh : Option D → CapStep D Nat) (s : Option D) (l : LogState) :
    (∀ s₂ v, Fw s = CapStep.ok s₂ v →
      get_width Fw s l = { host := .ret v, state := s₂, log := l }) ∧
    (∀ s₂, Fw s = CapStep.panic s₂ →
      get_width Fw s l = { host := .unwound, state := s₂, log := l }) ∧
    (∀ s₂ v, Fh s = CapStep.ok s₂ v →
      get_height Fh s l = { host := .ret v, state := s₂, log := l }) ∧
    (∀ s₂, Fh s = CapStep.panic s₂ →
      get_height Fh s l = { host := .unwound, state := s₂, log := l }) := by
  refine ⟨?_, ?_, ?_, ?_⟩ <;> intro s₂
  · intro v h
    simp [get_width, run_unwrapped, h]
  · intro h
    simp [get_width, run_unwrapped, h]
  · intro v h
    simp [get_height, run_unwrapped, h]
  · intro h
    simp [get_height, run_unwrapped, h]

/-- C2 witness: the amended theorem applied to the concrete implementation
that returns 1920 on success and to one that panics. -/
theorem get_width_height_uncontained_witness :
    get_width (fun s : Option Unit => CapStep.ok s 1920) none { count := 0 } =
      { host := .ret 1920, state := none, log := { count := 0 } } ∧
    get_height (fun _ : Option Unit => CapStep.panic (A := Nat) none) none
        { count := 0 } =
      { host := .unwound, state := none, log := { count := 0 } } :=
  ⟨(get_width_height_uncontained
      (fun s : Option Unit => CapStep.ok s 1920)
      (fun _ => CapStep.panic none) none { count := 0 }).1 none 1920 rfl,
   (get_width_height_uncontained
      (fun s : Option Unit => CapStep.ok s 1920)
      (fun _ => CapStep.panic none) none { count := 0 }).2.2.2 none rfl⟩

/-- C3 counterexample: a concrete capability whose activate code panics;
the activate trampoline lets the unwind escape to the host instead of
containing it as a no-op — so these trampolines are not fault-contained
as the claim states. -/
theorem activate_not_contained :
    (activate (fun _ : Option Unit => CapStep.panic (A := Unit) none) none
        { count := 0 }).host = HostResult.unwound ∧
    (activate (fun _ : Option Unit => CapStep.panic (A := Unit) none) none
        { count := 0 }).host ≠ HostResult.ret () := by
  refine ⟨rfl, ?_⟩
  decide

/-- C3 (amended): activate, deactivate, transition_start and
transition_stop carry no fault boundary: on success they return to the
host with the capability's state change, and when the capability panics
the fault escapes the trampoline to the host (no no-op containment, no
diagnostic-log report). -/
theorem lifecycle_uncontained {D : Type}
    (F : Option D → CapStep D Unit) (s : Option D) (l : LogState) :
    (∀ s₂, F s = CapStep.ok s₂ () →
      activate F s l = { host := .ret (), state := s₂, log := l } ∧
      deactivate F s l = { host := .ret (), state := s₂, log := l } ∧
      transition_start F s l = { host := .ret (), state := s₂, log := l } ∧
      transition_stop F s l = { host := .ret (), state := s₂, log := l }) ∧
    (∀ s₂, F s = CapStep.panic s₂ →
      activate F s l = { host := .unwound, state := s₂, log := l } ∧
      deactivate F s l = { host := .unwound, state := s₂, log := l } ∧
      transition_start F s l = { host := .unwound, state := s₂, log := l } ∧
      transition_stop F s l = { host := .unwound, state := s₂, log := l }) := by
  constructor <;> intro s₂ h <;>
    refine ⟨?_, ?_, ?_, ?_⟩ <;>
    simp [activate, deactivate, transition_start, transition_stop,
      run_unwrapped, h]

/-- C3 witness: the amended theorem applied to a concrete panicking
capability on the empty capsule. -/
theorem lifecycle_uncontained_witness :
    transition_start (fun _ : Option Unit => CapStep.panic (A := Unit) none)
        none { count := 0 } =
      { host := .unwound, state := none, log := { count := 0 } } :=
  ((lifecycle_uncontained
      (fun _ : Option Unit => CapStep.panic none) none
      { count := 0 }).2 none rfl).2.2.1

/-- C4 counterexample: the enumeration context passed to the capability
is identical for two different host callback/parameter pairs (the
context type has no fields), so the callback and its parameter are not
packaged into the per-call enumeration context as the claim states. -/
theorem enum_callback_not_packaged :
    (enum_active_sources (D := Unit) (fun s _ => CapStep.ok s ()) none 1 2
        { count := 0 }).passedContext =
      (enum_active_sources (D := Unit) (fun s _ => CapStep.ok s ()) none 3 4
        { count := 0 }).passedContext ∧
    ((1 : Nat), (2 : Nat)) ≠ ((3 : Nat), (4 : Nat)) := by
  exact ⟨rfl, by decide⟩

/-- C4 (amended): the enumeration trampolines ignore the host-supplied
callback pointer and parameter entirely: the whole call outcome is
independent of them, this layer never invokes the callback, and the
context passed to the capability is the empty context (so the callback is
not packaged into it). -/
theorem enum_trampolines_ignore_callback {D : Type}
    (F : Option D → EnumActiveContext → CapStep D Unit)
    (G : Option D → EnumAllContext → CapStep D Unit) (s : Option D)
    (cb p cb₂ p₂ : Nat) (l : LogState) :
    enum_active_sources F s cb p l = enum_active_sources F s cb₂ p₂ l ∧
    (enum_active_sources F s cb p l).hostCallbackCalls = 0 ∧
    (enum_active_sources F s cb p l).passedContext = {} ∧
    enum_all_sources G s cb p l = enum_all_sources G s cb₂ p₂ l ∧
    (enum_all_sources G s cb p l).hostCallbackCalls = 0 ∧
    (enum_all_sources G s cb p l).passedContext = {} :=
  ⟨rfl, rfl, rfl, rfl, rfl, rfl⟩

/-- C5: the filter_audio trampoline returns exactly the raw audio handle
it was given whenever the capability call completes without a fault
(whatever the capability did through the audio view), and returns the
null handle with one diagnostic-log report when a fault is contained. -/
theorem filter_audio_contract {D : Type}
    (F : Option D → AudioDataContext → CapStep D Unit) (s : Option D)
    (audio : Nat) (l : LogState) :
    (∀ s₂ u, F s { raw := audio } = CapStep.ok s₂ u →
      filter_audio F s audio l =
        { host := .ret audio, state := s₂, log := l }) ∧
    (∀ s₂, F s { raw := audio } = CapStep.panic s₂ →
      filter_audio F s audio l =
        { host := .ret 0, state := s₂, log := error_log l }) := by
  constructor
  · intro s₂ u h
    simp [filter_audio, run_body, handle_unwind_with_def, catch_unwind, h]
  · intro s₂ h
    simp [filter_audio, run_body, handle_unwind_with_def, catch_unwind, h]

/-- C5 witness: the contract applied to a concrete success capability at
handle 7 and a concrete panicking capability at handle 7. -/
theorem filter_audio_contract_witness :
    filter_audio (D := Unit) (fun s _ => CapStep.ok s ()) none 7
        { count := 0 } =
      { host := .ret 7, state := none, log := { count := 0 } } ∧
    filter_audio (D := Unit) (fun _ _ => CapStep.panic none) none 7
        { count := 0 } =
      { host := .ret 0, state := none, log := { count := 1 } } :=
  ⟨(filter_audio_contract (fun s _ => CapStep.ok s ()) none 7
      { count := 0 }).1 none () rfl,
   (filter_audio_contract (D := Unit) (fun _ _ => CapStep.panic none) none 7
      { count := 0 }).2 none rfl⟩

/-- C7: the audio_render trampoline hands the host the boolean true on
every invocation: the body ends in the literal true on success, and the
boundary default is also true on a contained fault. -/
theorem audio_render_always_true {D : Type} (F : Option D → CapStep D Unit)
    (s : Option D) (l : LogState) :
    (audio_render F s l).host = HostResult.ret true := by
  cases h : F s <;>
    simp [audio_render, run_body, handle_unwind_with_def, catch_unwind, h]

/-- C6: when the capability panics inside get_properties, the trampoline
returns the null properties handle (never the builder allocated before
the fault), forwards nothing to the host, releases every builder it
allocated (no leak), and reports the fault once. -/
theorem get_properties_fault_null_no_leak {D : Type}
    (F : Option D → CapStep D Unit) (s s₂ : Option D) (propPtr : Nat)
    (l : LogState) (hp : 0 < propPtr) (h : F s = CapStep.panic s₂) :
    (get_properties F s propPtr l).host = HostResult.ret 0 ∧
    (get_properties F s propPtr l).host ≠ HostResult.ret propPtr ∧
    (get_properties F s propPtr l).forwarded = 0 ∧
    (get_properties F s propPtr l).released =
      (get_properties F s propPtr l).allocated ∧
    (get_properties F s propPtr l).log = error_log l := by
  refine ⟨?_, ?_, ?_, ?_, ?_⟩ <;>
    simp [get_properties, run_body, handle_unwind_with_def, catch_unwind, h]
  omega

/-- C6 witness: the fault contract applied to a concrete panicking
capability with the builder allocated at raw pointer 5. -/
theorem get_properties_fault_witness :
    0 < 5 ∧
    (get_properties (D := Unit) (fun _ => CapStep.panic none) none 5
        { count := 0 }).host = HostResult.ret 0 :=
  ⟨by decide,
   (get_properties_fault_null_no_leak (fun _ => CapStep.panic none) none none
      5 { count := 0 } (by decide) rfl).1⟩

/-- C8: evaluation at the failing input. When the update capability
panics, the borrowed settings wrapper is dropped during unwinding before
mem::forget is reached, so this layer releases the host-owned settings
even though the contained call still returns normally to the host; on
the normal-return paths of update, create and get_defaults the release
is suppressed as the claim states. -/
theorem update_releases_settings_on_contained_panic :
    (update (D := Unit) (fun _ => CapStep.panic none) none
        { count := 0 }).settingsReleased = true ∧
    (update (D := Unit) (fun _ => CapStep.panic none) none
        { count := 0 }).host = HostResult.ret () ∧
    (update (D := Unit) (fun s => CapStep.ok s ()) none
        { count := 0 }).settingsReleased = false ∧
    (create (D := Unit) (PanicOr.ok ()) { count := 0 }).settingsReleased =
      false ∧
    (get_defaults (PanicOr.ok ()) { count := 0 }).settingsReleased = false :=
  ⟨rfl, rfl, rfl, rfl, rfl⟩

/-- C9: create_default_data appends a fresh slot (a handle not live
before the call) holding the empty capsule — no instance value stored —
and is a total function taking no capability argument (no failure path
in the model; allocation failure is a fatal abort). -/
theorem create_default_data_fresh_empty (D : Type) (h : Heap D) :
    ((create_default_data D h).2)[(create_default_data D h).1]? =
      some (some (DataWrapper.default D)) ∧
    h[(create_default_data D h).1]? = none ∧
    (create_default_data D h).2.length = h.length + 1 := by
  refine ⟨?_, ?_, ?_⟩ <;>
    simp [create_default_data, List.getElem?_concat_length, List.getElem?_eq_none]

/-- C10: destroying a capsule allocated by create_default_data and never
populated is well-defined: the call returns normally (a result exists),
the slot is freed, and the instance teardown logic runs zero times. -/
theorem destroy_empty_capsule (D : Type) (h : Heap D) :
    destroy D (create_default_data D h).2 (create_default_data D h).1 =
      some (((create_default_data D h).2).set h.length none, 0) := by
  simp [destroy, create_default_data, DataWrapper.default,
    List.getElem?_concat_length]

end ObsFfi
